import Mathlib

/-
  Verification of the LibreQoE bufferbloat_test server against its
  natural-language specification.

  The Lean definitions below are shallow embeddings of the Python code in
  src/server.  Wall-clock timestamps, rates (Mb/s) and latencies (ms) are
  modelled as rationals; machine byte strings are lists of naturals
  (each < 256); Python dictionaries keyed by IP address are modelled as
  total functions with default value 0 (a missing key and a key holding
  the default are extensionally identical for every operation modelled).
-/

namespace BBTest

/-! ## Data model (websocket_virtual_household.py)

UserProfile, burst patterns, burst state and the session-health fields of
TrafficSession, as declared in src/server/websocket_virtual_household.py. -/

/-- Burst pattern configuration, from the burst_pattern dicts built in
HighPerformanceSessionManager.__init__: either a constant-rate pattern or a
two-phase pattern (type netflix_adaptive or update_bursts) with burst and
pause durations (seconds) and rates (Mb/s). -/
inductive BurstPattern where
  | constant : BurstPattern
  | netflixAdaptive (burst_duration pause_duration burst_rate pause_rate : ℚ) : BurstPattern
  | updateBursts (burst_duration pause_duration burst_rate pause_rate : ℚ) : BurstPattern
deriving DecidableEq, Repr

/-- UserProfile dataclass: persona name, target download and upload rates in
Mb/s, and the burst pattern (description and activity_type strings are
carried verbatim). -/
structure UserProfile where
  name : String
  download_mbps : ℚ
  upload_mbps : ℚ
  description : String
  activity_type : String
  burst_pattern : BurstPattern
deriving DecidableEq, Repr

/-- The phase field of the burst_state dict: active or pause. -/
inductive Phase where
  | active : Phase
  | pause : Phase
deriving DecidableEq, Repr

/-- The burst_state dict initialised in TrafficSession.__post_init__:
current phase, phase-start timestamp, cycle counter. -/
structure BurstState where
  phase : Phase
  phase_start_time : ℚ
  cycle_count : ℕ
deriving DecidableEq, Repr

/-- The fields of the TrafficSession dataclass consulted by
is_session_expired and get_current_effective_rate (the WebSocket handle and
byte counters are irrelevant to those functions and are not modelled). -/
structure TrafficSession where
  user_id : String
  profile : UserProfile
  start_time : ℚ
  last_activity : ℚ
  burst_state : BurstState
  inactivity_timeout : ℚ := 30
  connection_test_failures : ℕ := 0
  max_connection_failures : ℕ := 3
deriving DecidableEq, Repr

/-! ## C1: HighPerformanceSessionManager.is_session_expired -/

/-- is_session_expired, lines 898 to 925 of websocket_virtual_household.py:
expired when inactive longer than inactivity_timeout, or total duration
exceeds 45 s (profiles with download_mbps strictly above 100) or 60 s
(all others), or connection_test_failures reached max_connection_failures. -/
def isSessionExpired (s : TrafficSession) (now : ℚ) : Bool :=
  let inactive_duration := now - s.last_activity
  let total_duration := now - s.start_time
  if inactive_duration > s.inactivity_timeout then
    true
  else
    let max_duration : ℚ := if s.profile.download_mbps > 100 then 45 else 60
    if total_duration > max_duration then
      true
    else if s.connection_test_failures ≥ s.max_connection_failures then
      true
    else
      false

/-- The expiry predicate exactly as the claim words it (for comparison with
the code): the duration cap is 45 s for personas with target download rate
greater than or equal to 100 Mb/s. -/
def claimedSessionExpired (s : TrafficSession) (now : ℚ) : Bool :=
  decide (now - s.last_activity > 30) ||
  decide (now - s.start_time >
    (if s.profile.download_mbps ≥ 100 then (45 : ℚ) else 60)) ||
  decide (s.connection_test_failures ≥ 3)

/-- A session profile with download rate exactly 100 Mb/s, used to separate
the claimed threshold (at least 100) from the coded one (strictly above
100). -/
def hundredMbpsSession : TrafficSession :=
  { user_id := "computer_1"
    profile :=
      { name := "Computer (Updates)"
        download_mbps := 100
        upload_mbps := 0.1
        description := "High-speed downloads"
        activity_type := "bulk_transfer"
        burst_pattern := BurstPattern.constant }
    start_time := 0
    last_activity := 40
    burst_state := { phase := Phase.active, phase_start_time := 0, cycle_count := 0 } }

/-! ## C2: HighPerformanceTrafficGenerator.get_current_effective_rate -/

/-- The direction argument of get_current_effective_rate. -/
inductive Direction where
  | download : Direction
  | upload : Direction
deriving DecidableEq, Repr

/-- get_current_effective_rate, lines 257 to 315 of
websocket_virtual_household.py.  Returns the effective rate together with
the (possibly mutated) burst state; the Python function mutates
session.burst_state in place, modelled here by returning the new state.
The netflix_adaptive and update_bursts branches are textually identical in
the source (only log messages differ); in particular the cycle counter is
incremented in the active-to-pause transition of both branches and in
neither pause-to-active transition. -/
def getCurrentEffectiveRate (profile : UserProfile) (bs : BurstState)
    (direction : Direction) (now : ℚ) : ℚ × BurstState :=
  match profile.burst_pattern with
  | BurstPattern.constant =>
      ((if direction = Direction.download then profile.download_mbps else profile.upload_mbps), bs)
  | BurstPattern.netflixAdaptive burst_duration pause_duration burst_rate pause_rate =>
      let phase_elapsed := now - bs.phase_start_time
      match bs.phase with
      | Phase.active =>
          if phase_elapsed ≥ burst_duration then
            ((if direction = Direction.download then pause_rate else profile.upload_mbps),
             { phase := Phase.pause, phase_start_time := now, cycle_count := bs.cycle_count + 1 })
          else
            ((if direction = Direction.download then burst_rate else profile.upload_mbps), bs)
      | Phase.pause =>
          if phase_elapsed ≥ pause_duration then
            ((if direction = Direction.download then burst_rate else profile.upload_mbps),
             { phase := Phase.active, phase_start_time := now, cycle_count := bs.cycle_count })
          else
            ((if direction = Direction.download then pause_rate else profile.upload_mbps), bs)
  | BurstPattern.updateBursts burst_duration pause_duration burst_rate pause_rate =>
      let phase_elapsed := now - bs.phase_start_time
      match bs.phase with
      | Phase.active =>
          if phase_elapsed ≥ burst_duration then
            ((if direction = Direction.download then pause_rate else profile.upload_mbps),
             { phase := Phase.pause, phase_start_time := now, cycle_count := bs.cycle_count + 1 })
          else
            ((if direction = Direction.download then burst_rate else profile.upload_mbps), bs)
      | Phase.pause =>
          if phase_elapsed ≥ pause_duration then
            ((if direction = Direction.download then burst_rate else profile.upload_mbps),
             { phase := Phase.active, phase_start_time := now, cycle_count := bs.cycle_count })
          else
            ((if direction = Direction.download then pause_rate else profile.upload_mbps), bs)

/-! ## Persona profiles (HighPerformanceSessionManager.__init__) -/

/-- The alex profile: constant 1.5 Mb/s down, 0.75 Mb/s up. -/
def alexProfile : UserProfile :=
  { name := "Alex (Gamer)"
    download_mbps := 1.5
    upload_mbps := 0.75
    description := "Competitive gaming with low latency needs"
    activity_type := "gaming"
    burst_pattern := BurstPattern.constant }

/-- The sarah profile: constant 2.5 Mb/s bidirectional. -/
def sarahProfile : UserProfile :=
  { name := "Sarah (Video Call)"
    download_mbps := 2.5
    upload_mbps := 2.5
    description := "HD video conferencing"
    activity_type := "video_call"
    burst_pattern := BurstPattern.constant }

/-- The jake profile: netflix_adaptive bursts, 1 s at 25 Mb/s then 4 s at
0 Mb/s. -/
def jakeProfile : UserProfile :=
  { name := "Jake (Netflix)"
    download_mbps := 25
    upload_mbps := 0.1
    description := "HD Netflix streaming with realistic buffering (5 Mbps average)"
    activity_type := "streaming"
    burst_pattern := BurstPattern.netflixAdaptive 1 4 25 0 }

/-- The computer profile: constant 1000 Mb/s down, 0.1 Mb/s up. -/
def computerProfile : UserProfile :=
  { name := "Computer (Updates)"
    download_mbps := 1000
    upload_mbps := 0.1
    description := "High-speed downloads (1 Gbps)"
    activity_type := "bulk_transfer"
    burst_pattern := BurstPattern.constant }

/-- The user_profiles dict of HighPerformanceSessionManager. -/
def userProfiles : List (String × UserProfile) :=
  [ (r"alex", alexProfile)
  , (r"sarah", sarahProfile)
  , (r"jake", jakeProfile)
  , (r"computer", computerProfile) ]

/-! ## C9: persona resolution and WebSocket close codes -/

/-- Extraction of the user type in start_session:
user_id.split with an underscore separator, first component, lower-cased. -/
def extractUserType (user_id : String) : String :=
  String.mk ((user_id.toList.takeWhile (fun c => c ≠ '_')).map Char.toLower)

/-- Profile lookup in start_session:
self.user_profiles.get(user_type, self.user_profiles[computer key]) —
a missing persona key silently falls back to the computer profile. -/
def startSessionProfile (user_id : String) : UserProfile :=
  match userProfiles.lookup (extractUserType user_id) with
  | some p => p
  | none => computerProfile

/-- Observable outcome of the websocket_virtual_user endpoint in
websocket_virtual_household.py: a close with a WebSocket close code, or a
served session with the resolved profile. -/
inductive WsOutcome where
  | closed (code : ℕ) : WsOutcome
  | served (profile : UserProfile) : WsOutcome
deriving DecidableEq, Repr

/-- websocket_virtual_user, lines 1435 onward of
websocket_virtual_household.py: a failed rate-limit check closes with 1008;
a failed start_session (capacity) closes with 1013; otherwise start_session
accepts and registers a session whose profile is resolved with the computer
fallback.  No path closes with 1003. -/
def websocketVirtualUser (rateLimitOk : Bool) (atCapacity : Bool)
    (user_id : String) : WsOutcome :=
  if ¬ rateLimitOk then
    WsOutcome.closed 1008
  else if atCapacity then
    WsOutcome.closed 1013
  else
    WsOutcome.served (startSessionProfile user_id)

/-- The supported user types of simple_config.get_supported_user_types
(the keys of user_type_processes). -/
def supportedUserTypes : List String :=
  [r"alex", r"sarah", r"jake", r"computer"]

/-- Outcome of the user-type validation at the top of
SimpleLoadBalancer.route_user_connection (simple_load_balancer.py,
line 238): an unsupported user type is closed with code 1003, any supported
one proceeds to routing. -/
inductive RouteOutcome where
  | closedUnsupported1003 : RouteOutcome
  | proceed : RouteOutcome
deriving DecidableEq, Repr

/-- The validation step of route_user_connection: close 1003 iff the user
id is not among the supported user types. -/
def routeUserConnectionValidate (user_id : String) : RouteOutcome :=
  if user_id ∈ supportedUserTypes then
    RouteOutcome.proceed
  else
    RouteOutcome.closedUnsupported1003

/-! ## C3 and C10: RateLimiter (rate_limiter.py)

The per-IP ConnectionTracker counters.  Python stores trackers in a dict
created on demand with all counters 0; a dict without a key and a dict
whose key holds 0 behave identically for every operation modelled here
(release only touches existing keys, and max 0 (0-1) = 0), so the state is
a total function from IP to the integer counter value.  Counters are
modelled as integers, not naturals, so that the non-negativity claims are
about the code and not about the encoding. -/

/-- The per-IP counters of all ConnectionTrackers: active downloads,
active uploads, active websockets (rate_limiter.py). -/
structure RLState where
  downloads : String → ℤ
  uploads : String → ℤ
  websockets : String → ℤ

/-- The empty RateLimiter: no tracker exists, every counter reads 0. -/
def rlInit : RLState :=
  { downloads := fun _ => 0, uploads := fun _ => 0, websockets := fun _ => 0 }

/-- MAX_DOWNLOAD_CONNECTIONS. -/
def MAX_DOWNLOAD_CONNECTIONS : ℤ := 3

/-- MAX_UPLOAD_CONNECTIONS. -/
def MAX_UPLOAD_CONNECTIONS : ℤ := 100

/-- MAX_WEBSOCKET_CONNECTIONS. -/
def MAX_WEBSOCKET_CONNECTIONS : ℤ := 12

/-- RateLimiter.check_download_limit, lines 145 to 165: a central-server
request (User-Agent beginning with the LibreQoS-Central token) bypasses the
limit and returns allowed without touching any tracker; otherwise, at or
above MAX_DOWNLOAD_CONNECTIONS active downloads the call raises HTTP 429
(returned here as false) leaving the state unchanged, and below the limit
it increments the counter and returns allowed. -/
def checkDownloadLimit (s : RLState) (ip : String) (central : Bool) : RLState × Bool :=
  if central then
    (s, true)
  else if s.downloads ip ≥ MAX_DOWNLOAD_CONNECTIONS then
    (s, false)
  else
    ({ s with downloads := fun j => if j = ip then s.downloads ip + 1 else s.downloads j }, true)

/-- RateLimiter.release_download_connection, lines 167 to 174: decrement
clamped at zero (max 0 (n-1)); an IP without a tracker is untouched, which
coincides with the clamp on the default 0. -/
def releaseDownloadConnection (s : RLState) (ip : String) : RLState :=
  { s with downloads := fun j => if j = ip then max 0 (s.downloads ip - 1) else s.downloads j }

/-- RateLimiter.check_upload_limit, lines 176 to 196 (same shape as the
download check, limit 100). -/
def checkUploadLimit (s : RLState) (ip : String) (central : Bool) : RLState × Bool :=
  if central then
    (s, true)
  else if s.uploads ip ≥ MAX_UPLOAD_CONNECTIONS then
    (s, false)
  else
    ({ s with uploads := fun j => if j = ip then s.uploads ip + 1 else s.uploads j }, true)

/-- RateLimiter.release_upload_connection, lines 198 to 205: decrement
clamped at zero. -/
def releaseUploadConnection (s : RLState) (ip : String) : RLState :=
  { s with uploads := fun j => if j = ip then max 0 (s.uploads ip - 1) else s.uploads j }

/-- RateLimiter.check_websocket_limit, lines 231 to 251 (same shape, limit
12). -/
def checkWebsocketLimit (s : RLState) (ip : String) (central : Bool) : RLState × Bool :=
  if central then
    (s, true)
  else if s.websockets ip ≥ MAX_WEBSOCKET_CONNECTIONS then
    (s, false)
  else
    ({ s with websockets := fun j => if j = ip then s.websockets ip + 1 else s.websockets j }, true)

/-- RateLimiter.release_websocket_connection, lines 253 to 260: decrement
clamped at zero. -/
def releaseWebsocketConnection (s : RLState) (ip : String) : RLState :=
  { s with websockets := fun j => if j = ip then max 0 (s.websockets ip - 1) else s.websockets j }

/-- One call into the RateLimiter: any check (with its request possibly a
central-server one) or any release. -/
inductive RLOp where
  | checkDownload (ip : String) (central : Bool) : RLOp
  | releaseDownload (ip : String) : RLOp
  | checkUpload (ip : String) (central : Bool) : RLOp
  | releaseUpload (ip : String) : RLOp
  | checkWebsocket (ip : String) (central : Bool) : RLOp
  | releaseWebsocket (ip : String) : RLOp

/-- Apply one RateLimiter call to the state (the allowed/429 result is
dropped; it is recovered by applying the check function directly). -/
def rlStep (s : RLState) : RLOp → RLState
  | RLOp.checkDownload ip central => (checkDownloadLimit s ip central).1
  | RLOp.releaseDownload ip => releaseDownloadConnection s ip
  | RLOp.checkUpload ip central => (checkUploadLimit s ip central).1
  | RLOp.releaseUpload ip => releaseUploadConnection s ip
  | RLOp.checkWebsocket ip central => (checkWebsocketLimit s ip central).1
  | RLOp.releaseWebsocket ip => releaseWebsocketConnection s ip

/-- The RateLimiter state after an arbitrary interleaving of calls starting
from the freshly constructed limiter. -/
def rlRun (ops : List RLOp) : RLState :=
  ops.foldl rlStep rlInit

/-! ## C10 (continued): SimpleRateLimiter WebSocket session counters -/

/-- The websocket_sessions_count defaultdict of SimpleRateLimiter,
simple_rate_limiter.py: per-IP session count (defaultdict(int), so a
missing key reads 0; track_websocket_disconnect deletes the key when the
count returns to 0, which is extensionally the same as storing 0). -/
def swInit : String → ℤ := fun _ => 0

/-- SimpleRateLimiter.track_websocket_connect, lines 118 to 128: increment
unconditionally. -/
def trackWebsocketConnect (s : String → ℤ) (ip : String) : String → ℤ :=
  fun j => if j = ip then s ip + 1 else s j

/-- SimpleRateLimiter.track_websocket_disconnect, lines 130 to 148: if the
count is positive decrement it (deleting the key at zero); otherwise log a
warning and leave the state unchanged. -/
def trackWebsocketDisconnect (s : String → ℤ) (ip : String) : String → ℤ :=
  if s ip > 0 then
    fun j => if j = ip then s ip - 1 else s j
  else
    s

/-- One call into the SimpleRateLimiter session tracking. -/
inductive SWOp where
  | connect (ip : String) : SWOp
  | disconnect (ip : String) : SWOp

/-- Apply one SimpleRateLimiter tracking call. -/
def swStep (s : String → ℤ) : SWOp → String → ℤ
  | SWOp.connect ip => trackWebsocketConnect s ip
  | SWOp.disconnect ip => trackWebsocketDisconnect s ip

/-- The SimpleRateLimiter session counters after an arbitrary interleaving
of connect and disconnect calls from the freshly constructed limiter. -/
def swRun (ops : List SWOp) : String → ℤ :=
  ops.foldl swStep swInit

/-! ## C4: SimpleRateLimiter.check_download_limit (simple_rate_limiter.py) -/

/-- The DownloadRecord named tuple: completion timestamp and byte count. -/
structure DownloadRecord where
  timestamp : ℚ
  bytes_downloaded : ℕ
deriving DecidableEq, Repr

/-- Default downloads_per_hour (RATE_LIMIT_DOWNLOADS_PER_HOUR unset). -/
def downloadsPerHour : ℕ := 16

/-- Default bandwidth_bytes_per_hour: 45 GiB
(bandwidth_gb_per_hour * 1024 * 1024 * 1024). -/
def bandwidthBytesPerHour : ℕ := 45 * 1024 * 1024 * 1024

/-- The recent_downloads filter inside check_download_limit: records whose
timestamp is strictly later than one hour before now. -/
def recentRecords (history : List DownloadRecord) (now : ℚ) : List DownloadRecord :=
  history.filter (fun record => decide (record.timestamp > now - 3600))

/-- SimpleRateLimiter.check_download_limit, lines 50 to 81, as a function
of the download history of one IP (the per-IP dict entry) and the current
time.  Returns the is_allowed boolean (the error message is a log string).
Reject when the recent-record count reaches downloads_per_hour, else when
the recent byte total reaches bandwidth_bytes_per_hour. -/
def simpleCheckDownloadLimit (history : List DownloadRecord) (now : ℚ) : Bool :=
  let recent_downloads := recentRecords history now
  let test_count := recent_downloads.length
  if test_count ≥ downloadsPerHour then
    false
  else
    let total_bytes := (recent_downloads.map (fun r => r.bytes_downloaded)).sum
    if total_bytes ≥ bandwidthBytesPerHour then
      false
    else
      true

/-! ## C5: Netflix chunk generation (endpoints/download.py)

Byte strings are lists of naturals below 256.  struct.pack with format
<IIIIHBBBBHH writes the fields little-endian with standard sizes and no
alignment padding. -/

/-- Two little-endian bytes of a 16-bit value (struct format H). -/
def le16 (n : ℕ) : List ℕ :=
  [n % 256, n / 256 % 256]

/-- Four little-endian bytes of a 32-bit value (struct format I). -/
def le32 (n : ℕ) : List ℕ :=
  [n % 256, n / 256 % 256, n / 65536 % 256, n / 16777216 % 256]

/-- Little-endian decoding of a byte list back into a natural number. -/
def decodeLEBytes (bytes : List ℕ) : ℕ :=
  bytes.foldr (fun b acc => b + 256 * acc) 0

/-- The quality-level map in generate_netflix_chunk:
HD to 3, 1080p to 2, 720p to 1, 480p to 0, default 2. -/
def qualityLevel (quality : String) : ℕ :=
  match quality with
  | "HD" => 3
  | "1080p" => 2
  | "720p" => 1
  | "480p" => 0
  | _ => 2

/-- The 26 bytes produced by struct.pack with format <IIIIHBBBBHH in
generate_netflix_chunk (the comment in the source calls this block a
48-byte header, but the format yields 4+4+4+4+2+1+1+1+1+2+2 = 26 bytes):
sequence, timestamp-ms (already reduced mod 2^32 by the caller), chunk
size, reserved 0, viewer count 0, keyframe flag (1 iff sequence mod 30 is
0), quality level, complexity 1, padding 0, buffer level 0, padding 0. -/
def netflixHeader (sequence timestamp_ms chunk_size : ℕ) (quality : String) : List ℕ :=
  le32 sequence ++ le32 timestamp_ms ++ le32 chunk_size ++ le32 0 ++
  le16 0 ++
  [if sequence % 30 = 0 then 1 else 0] ++
  [qualityLevel quality] ++
  [1] ++
  [0] ++
  le16 0 ++ le16 0

/-- Truncation to 16 bytes then NUL-padding on the right to exactly 16
bytes, as applied to the session and flow id byte strings. -/
def padTo16 (bytes : List ℕ) : List ℕ :=
  bytes.take 16 ++ List.replicate (16 - (bytes.take 16).length) 0

/-- The four-word rotation used to fill keyframe chunks. -/
def keyPatternWord (k : ℕ) : ℕ :=
  match k % 4 with
  | 0 => 0x12345678
  | 1 => 0x87654321
  | 2 => 0xABCDEF00
  | _ => 0x00FEDCBA

/-- Keyframe filler: for i in range(0, remaining, 4) append the packed
rotation word, then truncate to remaining bytes. -/
def keyframeFill (remaining : ℕ) : List ℕ :=
  (((List.range ((remaining + 3) / 4)).map (fun k => le32 (keyPatternWord k))).flatten).take remaining

/-- Delta-frame filler: the word 0x11111111 XOR (sequence AND 0xFFFF)
repeated remaining/4 + 1 times, truncated to remaining bytes. -/
def deltaFill (sequence remaining : ℕ) : List ℕ :=
  (((List.range (remaining / 4 + 1)).map
      (fun _ => le32 (Nat.xor 0x11111111 (Nat.land sequence 0xFFFF)))).flatten).take remaining

/-- generate_netflix_chunk, lines 111 to 162 of endpoints/download.py.
The timestamp argument is time.time()*1000 truncated to an integer; the
code reduces it mod 2^32 before packing.  sessionId and flowId are the
UTF-8 byte strings taken from the request body.  The assembled data is
header, then the two padded ids, then pattern filler up to the requested
chunk size (nothing is appended when the requested size does not exceed
58 bytes), finally truncated to exactly chunk_size bytes. -/
def generateNetflixChunk (chunk_size : ℕ) (quality : String) (sequence : ℕ)
    (timestamp : ℕ) (sessionId flowId : List ℕ) : List ℕ :=
  let timestamp_ms := timestamp % 4294967296
  let header := netflixHeader sequence timestamp_ms chunk_size quality
  let chunk_data := header ++ padTo16 sessionId ++ padTo16 flowId
  let remaining_size := chunk_size - chunk_data.length
  let filled :=
    if remaining_size > 0 then
      if sequence % 30 = 0 then
        chunk_data ++ keyframeFill remaining_size
      else
        chunk_data ++ deltaFill sequence remaining_size
    else
      chunk_data
  filled.take chunk_size

/-- netflix_chunk_endpoint, lines 176 to 224 of endpoints/download.py, as
the byte string of its 200 response.  In burst mode every fifth sequence
number multiplies the requested chunk size by 1.5 before generation
(int(chunk_size * 1.5), exact for the integer sizes in range); the single
registration in main.py passes burst_mode False. -/
def netflixChunkEndpoint (burst_mode : Bool) (chunkSize : ℕ) (quality : String)
    (sequence : ℕ) (timestamp : ℕ) (sessionId flowId : List ℕ) : List ℕ :=
  let chunk_size := if burst_mode = true ∧ sequence % 5 = 0 then chunkSize * 3 / 2 else chunkSize
  generateNetflixChunk chunk_size quality sequence timestamp sessionId flowId

/-- The UTF-8 bytes of the default session id string netflix_session. -/
def defaultSessionIdBytes : List ℕ :=
  [110, 101, 116, 102, 108, 105, 120, 95, 115, 101, 115, 115, 105, 111, 110]

/-- The UTF-8 bytes of the default flow id string 0. -/
def defaultFlowIdBytes : List ℕ :=
  [48]

/-! ## C6: PerUserLatencyTracker (websocket_virtual_household.py) -/

/-- One entry of ping_history: the dict appended by update_latency. -/
structure PingSample where
  timestamp : ℚ
  latency_ms : ℚ
  sequence : Option ℕ
deriving DecidableEq, Repr

/-- The PerUserLatencyTracker dataclass fields touched by update_latency.
min_latency starts at float inf, modelled as none; the jitter field of the
Python object stores the square root of the sample variance, which is
irrational in general, so the tracker here carries the variance itself
(jitter_variance) — no claim mentions the jitter value.  last_ping_time
and ping_interval are not read or written by update_latency and are
omitted. -/
structure LatencyTracker where
  user_id : String
  baseline_latency : ℚ := 0
  current_latency : ℚ := 0
  latency_increase : ℚ := 0
  bufferbloat_severity : String := "none"
  ping_history : List PingSample := []
  baseline_established : Bool := false
  ping_sequence : ℕ := 0
  total_pings : ℕ := 0
  jitter_variance : ℚ := 0
  min_latency : Option ℚ := none
  max_latency : ℚ := 0
  avg_latency : ℚ := 0
deriving DecidableEq, Repr

/-- The mean of the latency values of a sample list (sum / length). -/
def meanLatency (samples : List PingSample) : ℚ :=
  (samples.map (fun h => h.latency_ms)).sum / (samples.length : ℚ)

/-- The bufferbloat severity classification at the end of update_latency:
below 10 none, below 50 mild, below 200 moderate, otherwise severe. -/
def classifySeverity (latency_increase : ℚ) : String :=
  if latency_increase < 10 then "none"
  else if latency_increase < 50 then "mild"
  else if latency_increase < 200 then "moderate"
  else "severe"

/-- PerUserLatencyTracker.update_latency, lines 62 to 121 of
websocket_virtual_household.py, with the wall clock passed explicitly:
update current/min/max, record the sequence number if given, bump
total_pings, append the sample and trim the history to the last 60 s,
recompute average and variance, establish the baseline as the mean of the
first 10 retained samples the first time the trimmed history reaches 10,
and derive latency_increase and severity once a positive baseline is
established. -/
def updateLatency (t : LatencyTracker) (latency_ms : ℚ) (sequence_num : Option ℕ)
    (now : ℚ) : LatencyTracker :=
  let min_latency :=
    match t.min_latency with
    | none => some latency_ms
    | some m => some (min m latency_ms)
  let max_latency := max t.max_latency latency_ms
  let ping_sequence :=
    match sequence_num with
    | some n => n
    | none => t.ping_sequence
  let total_pings := t.total_pings + 1
  let appended := t.ping_history ++ [{ timestamp := now, latency_ms := latency_ms, sequence := sequence_num }]
  let ping_history := appended.filter (fun h => decide (h.timestamp > now - 60))
  let avg_latency :=
    if ping_history.isEmpty then t.avg_latency else meanLatency ping_history
  let jitter_variance :=
    if ping_history.length ≥ 2 then
      let mean := meanLatency ping_history
      ((ping_history.map (fun h => (h.latency_ms - mean) ^ 2)).sum) / (ping_history.length : ℚ)
    else
      t.jitter_variance
  let establish := !t.baseline_established && decide (ping_history.length ≥ 10)
  let baseline_latency :=
    if establish then meanLatency (ping_history.take 10) else t.baseline_latency
  let baseline_established := t.baseline_established || establish
  let compute_increase := baseline_established && decide (baseline_latency > 0)
  let latency_increase :=
    if compute_increase then latency_ms - baseline_latency else t.latency_increase
  let bufferbloat_severity :=
    if compute_increase then classifySeverity (latency_ms - baseline_latency)
    else t.bufferbloat_severity
  { user_id := t.user_id
    baseline_latency := baseline_latency
    current_latency := latency_ms
    latency_increase := latency_increase
    bufferbloat_severity := bufferbloat_severity
    ping_history := ping_history
    baseline_established := baseline_established
    ping_sequence := ping_sequence
    total_pings := total_pings
    jitter_variance := jitter_variance
    min_latency := min_latency
    max_latency := max_latency
    avg_latency := avg_latency }

/-- One update_latency call: measured latency, optional sequence number,
wall-clock time of the call. -/
structure LTCall where
  latency_ms : ℚ
  sequence_num : Option ℕ
  now : ℚ

/-- The tracker after a sequence of update_latency calls starting from the
freshly constructed tracker of a user. -/
def ltRun (uid : String) (calls : List LTCall) : LatencyTracker :=
  calls.foldl (fun t c => updateLatency t c.latency_ms c.sequence_num c.now)
    { user_id := uid }

/-! ## C7: upload endpoint (endpoints/upload.py) -/

/-- MAX_REQUEST_SIZE, 512 MiB.  All three traffic patterns use this value
(background_batch re-assigns the identical constant; high_priority only
raises the processing-rate ceiling). -/
def MAX_REQUEST_SIZE : ℕ := 512 * 1024 * 1024

/-- The chunk loop of upload_endpoint: accumulate the streamed chunk sizes
and raise HTTP 413 as soon as the running total exceeds max_size.  failAt
injects an arbitrary non-HTTP exception (transport error, cancellation)
before reading the chunk at that index; the except-Exception arm of the
endpoint turns it into a 500 response.  A completed stream yields 200. -/
def runChunks (max_size : ℕ) : ℕ → ℕ → List ℕ → Option ℕ → ℕ
  | _, _, [], _ => 200
  | size, idx, c :: rest, failAt =>
      if failAt = some idx then 500
      else
        let size := size + c
        if size > max_size then 413
        else runChunks max_size size (idx + 1) rest failAt

/-- Result of one upload_endpoint invocation: HTTP status of the response,
number of successful rate-limit acquisitions, number of release calls. -/
structure UploadOutcome where
  status : ℕ
  acquires : ℕ
  releases : ℕ
deriving DecidableEq, Repr

/-- upload_endpoint, lines 34 to 139 of endpoints/upload.py, for a request
from an IP whose tracker currently holds activeUploads active uploads.
check_upload_limit runs before the try block: a central-server request
passes without acquiring, a request at the limit raises 429 before the try
block (so the finally clause never runs), and otherwise a slot is
acquired.  Inside the try block the body is streamed (runChunks); the
except arms map HTTP 413 and other exceptions to 413 and 500 responses,
and the finally clause releases the connection exactly once on every one
of those paths. -/
def uploadEndpoint (central : Bool) (activeUploads : ℤ) (chunks : List ℕ)
    (failAt : Option ℕ) : UploadOutcome :=
  if central then
    { status := runChunks MAX_REQUEST_SIZE 0 0 chunks failAt, acquires := 0, releases := 1 }
  else if activeUploads ≥ MAX_UPLOAD_CONNECTIONS then
    { status := 429, acquires := 0, releases := 0 }
  else
    { status := runChunks MAX_REQUEST_SIZE 0 0 chunks failAt, acquires := 1, releases := 1 }

/-! ## C8: HighPerformanceDataPool.get_bulk_data -/

/-- The bulk pool sizes generated by _generate_bulk_pools: 1 MiB to
64 MiB. -/
def bulkSizes : List ℕ :=
  [1048576, 2097152, 4194304, 8388608, 16777216, 33554432, 67108864]

/-- max_single_chunk in get_bulk_data: 64 MiB. -/
def maxSingleChunk : ℕ := 67108864

/-- The bulk_pools dict: pool size mapped to the os.urandom bytes of that
size.  The byte contents are random; the pool is parameterised by the
generator, constrained in the theorems by the length law of os.urandom. -/
structure DataPool where
  pools : List (ℕ × List ℕ)

/-- _generate_bulk_pools: one pool per size in bulkSizes, each filled by
the byte generator (os.urandom). -/
def mkDataPool (rand : ℕ → List ℕ) : DataPool :=
  { pools := bulkSizes.map (fun s => (s, rand s)) }

/-- Ascending insertion, the helper for the model of the Python sorted
builtin. -/
def insertAsc (x : ℕ) : List ℕ → List ℕ
  | [] => [x]
  | y :: ys => if x ≤ y then x :: y :: ys else y :: insertAsc x ys

/-- The Python sorted builtin on a list of naturals (insertion sort; any
sorting function agrees with sorted on lists of naturals). -/
def pySorted (l : List ℕ) : List ℕ :=
  l.foldr insertAsc []

/-- HighPerformanceDataPool.get_bulk_data, lines 207 to 227 of
websocket_virtual_household.py: cap the request at max_single_chunk, pick
the smallest pool at least as large as the capped request from the sorted
key list, and return its prefix of the capped length; if no pool is large
enough (impossible after the cap with the generated pools) fall back to
the largest pool. -/
def getBulkData (p : DataPool) (requested : ℕ) : List ℕ :=
  let size := if requested > maxSingleChunk then maxSingleChunk else requested
  let sorted_keys := pySorted (p.pools.map Prod.fst)
  let suitable_pools := sorted_keys.filter (fun pool_size => decide (pool_size ≥ size))
  match suitable_pools with
  | chosen :: _ => ((p.pools.lookup chosen).getD []).take size
  | [] =>
      let largest := (p.pools.map Prod.fst).foldl max 0
      ((p.pools.lookup largest).getD []).take size

/-! ## Concrete example inputs used in counterexamples and witnesses -/

/-- Three admitted non-central download checks from one IP. -/
def threeDownloadChecks : List RLOp :=
  [ RLOp.checkDownload (r"198.51.100.7") false
  , RLOp.checkDownload (r"198.51.100.7") false
  , RLOp.checkDownload (r"198.51.100.7") false ]

/-- The example IP used with threeDownloadChecks. -/
def exampleIp : String := "198.51.100.7"

/-- A burst state sitting in the pause phase since time 0 with no completed
cycles. -/
def pausedBurstState : BurstState :=
  { phase := Phase.pause, phase_start_time := 0, cycle_count := 0 }

/-- All RateLimiter counters of every IP sit between zero and their
configured limits. -/
def rlCountersBounded (s : RLState) : Prop :=
  ∀ ip, 0 ≤ s.downloads ip ∧ s.downloads ip ≤ 3 ∧
        0 ≤ s.uploads ip ∧ s.uploads ip ≤ 100 ∧
        0 ≤ s.websockets ip ∧ s.websockets ip ≤ 12

/-! # Theorems -/

/-! ## Rate limiter invariants (shared by the C3 and C10 claims) -/

/-- Every single RateLimiter call preserves the counter bounds. -/
lemma rlStep_bounded (s : RLState) (op : RLOp) (h : rlCountersBounded s) :
    rlCountersBounded (rlStep s op) := by
  cases op with
  | checkDownload j c =>
      intro ip
      have h1 := h ip
      have h2 := h j
      simp only [rlStep, checkDownloadLimit, MAX_DOWNLOAD_CONNECTIONS] at *
      split_ifs <;> by_cases hip : ip = j <;> simp_all <;> omega
  | releaseDownload j =>
      intro ip
      have h1 := h ip
      have h2 := h j
      simp only [rlStep, releaseDownloadConnection] at *
      by_cases hip : ip = j <;> simp_all <;> omega
  | checkUpload j c =>
      intro ip
      have h1 := h ip
      have h2 := h j
      simp only [rlStep, checkUploadLimit, MAX_UPLOAD_CONNECTIONS] at *
      split_ifs <;> by_cases hip : ip = j <;> simp_all <;> omega
  | releaseUpload j =>
      intro ip
      have h1 := h ip
      have h2 := h j
      simp only [rlStep, releaseUploadConnection] at *
      by_cases hip : ip = j <;> simp_all <;> omega
  | checkWebsocket j c =>
      intro ip
      have h1 := h ip
      have h2 := h j
      simp only [rlStep, checkWebsocketLimit, MAX_WEBSOCKET_CONNECTIONS] at *
      split_ifs <;> by_cases hip : ip = j <;> simp_all <;> omega
  | releaseWebsocket j =>
      intro ip
      have h1 := h ip
      have h2 := h j
      simp only [rlStep, releaseWebsocketConnection] at *
      by_cases hip : ip = j <;> simp_all <;> omega

/-- The counter bounds hold along any sequence of calls from any bounded
start state. -/
lemma rlFoldl_bounded (ops : List RLOp) :
    ∀ s : RLState, rlCountersBounded s → rlCountersBounded (ops.foldl rlStep s) := by
  induction ops with
  | nil => intro s h; exact h
  | cons op rest ih =>
      intro s h
      exact ih _ (rlStep_bounded s op h)

/-- The counter bounds hold for every state reachable from the fresh
limiter. -/
lemma rlRun_bounded (ops : List RLOp) : rlCountersBounded (rlRun ops) := by
  apply rlFoldl_bounded
  intro ip
  simp [rlInit]

/-- Non-negativity of the SimpleRateLimiter WebSocket session counters is
preserved along any sequence of connect and disconnect calls. -/
lemma swFoldl_nonneg (ops : List SWOp) :
    ∀ f : String → ℤ, (∀ j, 0 ≤ f j) → ∀ j, 0 ≤ (ops.foldl swStep f) j := by
  induction ops with
  | nil => intro f h; exact h
  | cons op rest ih =>
      intro f h
      apply ih
      intro j
      cases op with
      | connect i =>
          have h1 := h j
          have h2 := h i
          simp only [swStep, trackWebsocketConnect]
          by_cases hij : j = i <;> simp [hij] <;> omega
      | disconnect i =>
          have h1 := h j
          have h2 := h i
          simp only [swStep, trackWebsocketDisconnect]
          split_ifs <;> by_cases hij : j = i <;> simp_all <;> omega

/-! ## C1: session expiry -/

/-- C1 counterexample.  The claim puts the 45 s duration cap on personas
with target download rate at least 100 Mb/s; the code applies it only
strictly above 100 Mb/s.  A session of a persona at exactly 100 Mb/s,
50 s old, recently active and with no connection failures, is not expired
by the code although the claimed predicate calls it expired. -/
theorem claim_C1_counterexample :
    isSessionExpired hundredMbpsSession 50 = false ∧
    claimedSessionExpired hundredMbpsSession 50 = true := by
  constructor <;> norm_num [isSessionExpired, claimedSessionExpired, hundredMbpsSession]

/-- C1 amended: for every TrafficSession with the default field values
(inactivity_timeout 30 s, max_connection_failures 3), is_session_expired
returns true iff the session was inactive for more than 30 s, or the total
duration exceeds the cap — 45 s for personas with target download rate
strictly greater than 100 Mb/s, 60 s for all others — or at least 3
connection-test failures accumulated. -/
theorem claim_C1_session_expiry (s : TrafficSession) (now : ℚ)
    (htimeout : s.inactivity_timeout = 30) (hmax : s.max_connection_failures = 3) :
    isSessionExpired s now = true ↔
      (now - s.last_activity > 30 ∨
       now - s.start_time > (if s.profile.download_mbps > 100 then (45 : ℚ) else 60) ∨
       s.connection_test_failures ≥ 3) := by
  rw [isSessionExpired, htimeout, hmax]
  by_cases h1 : now - s.last_activity > 30 <;>
    by_cases h2 : now - s.start_time >
      (if s.profile.download_mbps > 100 then (45 : ℚ) else 60) <;>
      by_cases h3 : s.connection_test_failures ≥ 3 <;>
        simp [h1, h2, h3]

/-- C1 witness: the amended equivalence evaluated on the concrete 100 Mb/s
session at time 100 (inactive for 60 s, hence expired). -/
theorem claim_C1_witness :
    hundredMbpsSession.inactivity_timeout = 30 ∧
    hundredMbpsSession.max_connection_failures = 3 ∧
    (isSessionExpired hundredMbpsSession 100 = true ↔
      ((100 : ℚ) - hundredMbpsSession.last_activity > 30 ∨
       (100 : ℚ) - hundredMbpsSession.start_time >
         (if hundredMbpsSession.profile.download_mbps > 100 then (45 : ℚ) else 60) ∨
       hundredMbpsSession.connection_test_failures ≥ 3)) :=
  ⟨rfl, rfl, claim_C1_session_expiry hundredMbpsSession 100 rfl rfl⟩

/-! ## C2: effective rate of two-phase burst patterns -/

/-- C2 counterexample.  The claim says every phase flip increments the
cycle counter.  With the jake netflix_adaptive pattern, a session in the
pause phase since time 0, queried at time 5 (pause duration 4 elapsed),
flips to the active phase, resets the phase start, and returns the burst
rate — but its cycle counter stays 0 instead of becoming 1: the code bumps
the counter only on active-to-pause flips. -/
theorem claim_C2_counterexample :
    (getCurrentEffectiveRate jakeProfile pausedBurstState Direction.download 5).1 = 25 ∧
    (getCurrentEffectiveRate jakeProfile pausedBurstState Direction.download 5).2.phase = Phase.active ∧
    (getCurrentEffectiveRate jakeProfile pausedBurstState Direction.download 5).2.phase_start_time = 5 ∧
    (getCurrentEffectiveRate jakeProfile pausedBurstState Direction.download 5).2.cycle_count ≠
      pausedBurstState.cycle_count + 1 := by
  refine ⟨?_, ?_, ?_, ?_⟩ <;>
    norm_num [getCurrentEffectiveRate, jakeProfile, pausedBurstState]

/-- C2 amended: for a profile with a two-phase burst pattern
(netflix_adaptive or update_bursts) queried in the download direction,
whenever the wall-clock time elapsed in the current phase reaches that
phase duration, get_current_effective_rate flips the phase, resets the
phase-start timestamp to now, and returns the newly entered phase rate,
incrementing the cycle counter exactly on active-to-pause flips (the
pause-to-active flip leaves the counter unchanged); when the phase
duration has not elapsed it returns the current phase rate and leaves the
burst state unchanged. -/
theorem claim_C2_two_phase_rate (profile : UserProfile) (bd pd br pr : ℚ)
    (bs : BurstState) (now : ℚ)
    (hp : profile.burst_pattern = BurstPattern.netflixAdaptive bd pd br pr ∨
          profile.burst_pattern = BurstPattern.updateBursts bd pd br pr) :
    (bs.phase = Phase.active → now - bs.phase_start_time ≥ bd →
      getCurrentEffectiveRate profile bs Direction.download now =
        (pr, { phase := Phase.pause, phase_start_time := now,
               cycle_count := bs.cycle_count + 1 })) ∧
    (bs.phase = Phase.active → now - bs.phase_start_time < bd →
      getCurrentEffectiveRate profile bs Direction.download now = (br, bs)) ∧
    (bs.phase = Phase.pause → now - bs.phase_start_time ≥ pd →
      getCurrentEffectiveRate profile bs Direction.download now =
        (br, { phase := Phase.active, phase_start_time := now,
               cycle_count := bs.cycle_count })) ∧
    (bs.phase = Phase.pause → now - bs.phase_start_time < pd →
      getCurrentEffectiveRate profile bs Direction.download now = (pr, bs)) := by
  rcases hp with hp | hp <;>
    refine ⟨fun hph hel => ?_, fun hph hel => ?_, fun hph hel => ?_, fun hph hel => ?_⟩ <;>
      simp [getCurrentEffectiveRate, hp, hph, hel]

/-- C3 counterexample.  The claim says a check_download_limit call made
while the IP already has 3 active downloads raises HTTP 429.  After three
admitted checks the IP holds 3 active downloads, yet a fourth check whose
request is a central-server one (User-Agent beginning with the
LibreQoS-Central token) is allowed without raising 429 (and without
touching the state). -/
theorem claim_C3_counterexample :
    (rlRun threeDownloadChecks).downloads exampleIp = 3 ∧
    (checkDownloadLimit (rlRun threeDownloadChecks) exampleIp true).2 = true ∧
    (checkDownloadLimit (rlRun threeDownloadChecks) exampleIp true).1 =
      rlRun threeDownloadChecks :=
  ⟨by decide, rfl, rfl⟩

/-- C3 amended: for every client IP and every interleaving of RateLimiter
calls, the active_downloads count stays between 0 and 3; and every
non-central-server check made while the IP already has 3 active downloads
raises HTTP 429 leaving the whole state — in particular every other IP
tracker — unchanged.  Central-server requests bypass the check without
incrementing any counter. -/
theorem claim_C3_download_cap (ops : List RLOp) (ip : String) :
    (0 ≤ (rlRun ops).downloads ip ∧ (rlRun ops).downloads ip ≤ 3) ∧
    ((rlRun ops).downloads ip ≥ 3 →
      checkDownloadLimit (rlRun ops) ip false = (rlRun ops, false)) ∧
    (∀ central, (checkDownloadLimit (rlRun ops) ip central).1.downloads ip ≤ 3) := by
  have hb := rlRun_bounded ops ip
  refine ⟨⟨hb.1, hb.2.1⟩, fun hge => ?_, fun central => ?_⟩
  · simp only [checkDownloadLimit, MAX_DOWNLOAD_CONNECTIONS]
    rw [if_neg (by simp), if_pos hge]
  · simp only [checkDownloadLimit, MAX_DOWNLOAD_CONNECTIONS]
    have hb2 := rlRun_bounded ops
    split_ifs with hc hge
    · exact hb.2.1
    · exact hb.2.1
    · simp
      omega

/-- C3 witness: the amended statement evaluated at the concrete state
reached by three admitted checks of one IP, whose fourth non-central check
is rejected with 429 and leaves the state untouched. -/
theorem claim_C3_witness :
    (rlRun threeDownloadChecks).downloads exampleIp = 3 ∧
    checkDownloadLimit (rlRun threeDownloadChecks) exampleIp false =
      (rlRun threeDownloadChecks, false) :=
  ⟨by decide,
   (claim_C3_download_cap threeDownloadChecks exampleIp).2.1 (by decide)⟩

/-- C10: the per-IP resource counters of both rate limiters never go
negative: every reachable RateLimiter state has non-negative download,
upload and websocket counters; every reachable SimpleRateLimiter session
count is non-negative; each release operation clamps its counter at zero
even from an arbitrary state; and track_websocket_disconnect on an IP with
zero tracked sessions leaves the state unchanged. -/
theorem claim_C10_nonnegative_counters (ops : List RLOp) (sws : List SWOp)
    (s : RLState) (f : String → ℤ) (ip : String) :
    (∀ j, 0 ≤ (rlRun ops).downloads j ∧ 0 ≤ (rlRun ops).uploads j ∧
          0 ≤ (rlRun ops).websockets j) ∧
    (∀ j, 0 ≤ swRun sws j) ∧
    0 ≤ (releaseDownloadConnection s ip).downloads ip ∧
    0 ≤ (releaseUploadConnection s ip).uploads ip ∧
    0 ≤ (releaseWebsocketConnection s ip).websockets ip ∧
    (f ip = 0 → trackWebsocketDisconnect f ip = f) := by
  refine ⟨fun j => ?_, fun j => ?_, ?_, ?_, ?_, fun hzero => ?_⟩
  · have hb := rlRun_bounded ops j
    exact ⟨hb.1, hb.2.2.1, hb.2.2.2.2.1⟩
  · exact swFoldl_nonneg sws swInit (fun _ => le_refl 0) j
  · simp [releaseDownloadConnection]
  · simp [releaseUploadConnection]
  · simp [releaseWebsocketConnection]
  · simp [trackWebsocketDisconnect, hzero]

/-- C10 witness: a disconnect on a fresh SimpleRateLimiter (zero tracked
sessions) leaves the state unchanged. -/
theorem claim_C10_witness :
    swInit exampleIp = 0 ∧ trackWebsocketDisconnect swInit exampleIp = swInit :=
  ⟨rfl,
   (claim_C10_nonnegative_counters [] [] rlInit swInit exampleIp).2.2.2.2.2 rfl⟩

/-- C4: the SimpleRateLimiter download-admission decision is a function of
the records of the last hour only — it rejects iff at least 16 recent
records exist or their byte total reaches 45 GiB; appending arbitrarily
many records older than one hour does not change the decision, and
restricting the history to its recent records does not change it
either. -/
theorem claim_C4_rolling_window (history old : List DownloadRecord) (now : ℚ)
    (hold : ∀ r ∈ old, r.timestamp ≤ now - 3600) :
    (simpleCheckDownloadLimit history now = false ↔
      downloadsPerHour ≤ (recentRecords history now).length ∨
      bandwidthBytesPerHour ≤
        ((recentRecords history now).map (fun r => r.bytes_downloaded)).sum) ∧
    simpleCheckDownloadLimit (history ++ old) now = simpleCheckDownloadLimit history now ∧
    simpleCheckDownloadLimit (recentRecords history now) now =
      simpleCheckDownloadLimit history now := by
  have hstale : recentRecords old now = [] := by
    rw [recentRecords, List.filter_eq_nil_iff]
    intro r hr
    simp only [decide_eq_true_eq, not_lt]
    have := hold r hr
    linarith
  have happ : recentRecords (history ++ old) now = recentRecords history now := by
    rw [recentRecords, List.filter_append, ← recentRecords, ← recentRecords, hstale,
      List.append_nil]
  have hidem : recentRecords (recentRecords history now) now = recentRecords history now := by
    rw [recentRecords]
    apply List.filter_eq_self.mpr
    intro a ha
    rw [recentRecords] at ha
    exact (List.mem_filter.mp ha).2
  refine ⟨?_, ?_, ?_⟩
  · rw [simpleCheckDownloadLimit]
    split_ifs with h1 h2 <;> simp_all
  · rw [simpleCheckDownloadLimit, simpleCheckDownloadLimit, happ]
  · rw [simpleCheckDownloadLimit, simpleCheckDownloadLimit, hidem]

/-- C4 witness: the invariance under stale records evaluated on a history
of one recent record plus one record from more than an hour ago. -/
theorem claim_C4_witness :
    (∀ r ∈ [DownloadRecord.mk (-4000) 7], r.timestamp ≤ (1000 : ℚ) - 3600) ∧
    simpleCheckDownloadLimit ([DownloadRecord.mk 0 5] ++ [DownloadRecord.mk (-4000) 7]) 1000 =
      simpleCheckDownloadLimit [DownloadRecord.mk 0 5] 1000 :=
  ⟨by
    intro r hr
    simp only [List.mem_singleton] at hr
    subst hr
    norm_num,
   (claim_C4_rolling_window [DownloadRecord.mk 0 5] [DownloadRecord.mk (-4000) 7] 1000
     (by
       intro r hr
       simp only [List.mem_singleton] at hr
       subst hr
       norm_num)).2.1⟩

/-- Streaming a body whose total exceeds the cap always trips the 413
check, whatever prefix sums preceded it. -/
lemma runChunks_overflow (m : ℕ) :
    ∀ (chunks : List ℕ) (size idx : ℕ), size ≤ m → m < size + chunks.sum →
      runChunks m size idx chunks none = 413 := by
  intro chunks
  induction chunks with
  | nil =>
      intro size idx h1 h2
      simp only [List.sum_nil] at h2
      omega
  | cons c rest ih =>
      intro size idx h1 h2
      rw [runChunks, if_neg (by simp)]
      by_cases hov : size + c > m
      · rw [if_pos hov]
      · rw [if_neg hov]
        apply ih (size + c) (idx + 1) (by omega)
        simp only [List.sum_cons] at h2
        omega

/-- C7: for every admitted (non-central, below-limit) upload request, a
streamed body exceeding the 512 MiB cap makes the endpoint respond 413,
and on every exit path — normal completion, 413 rejection, or an injected
exception at any point of the stream — the rate-limit slot acquired on
entry is released exactly once. -/
theorem claim_C7_upload_release (activeUploads : ℤ) (chunks : List ℕ) (failAt : Option ℕ)
    (hadm : activeUploads < 100) :
    (MAX_REQUEST_SIZE < chunks.sum →
      (uploadEndpoint false activeUploads chunks none).status = 413) ∧
    (uploadEndpoint false activeUploads chunks failAt).acquires = 1 ∧
    (uploadEndpoint false activeUploads chunks failAt).releases = 1 := by
  have hlt : ¬ activeUploads ≥ MAX_UPLOAD_CONNECTIONS := by
    rw [MAX_UPLOAD_CONNECTIONS]
    omega
  refine ⟨fun hsum => ?_, ?_, ?_⟩ <;>
    simp only [uploadEndpoint, Bool.false_eq_true, if_false, if_neg hlt]
  · exact runChunks_overflow MAX_REQUEST_SIZE chunks 0 0 (Nat.zero_le _) (by omega)

/-- C7 witness: a single 512 MiB + 1 byte chunk from an idle IP is
rejected with 413 and the slot is released once. -/
theorem claim_C7_witness :
    (0 : ℤ) < 100 ∧ MAX_REQUEST_SIZE < ([536870913] : List ℕ).sum ∧
    (uploadEndpoint false 0 [536870913] none).status = 413 ∧
    (uploadEndpoint false 0 [536870913] none).releases = 1 :=
  ⟨by norm_num, by decide,
   (claim_C7_upload_release 0 [536870913] none (by norm_num)).1 (by decide),
   (claim_C7_upload_release 0 [536870913] none (by norm_num)).2.2⟩

/-- For any capped request size, the sorted-and-filtered pool key list
starts with the smallest pool size that can satisfy the request. -/
lemma bulkFilter_spec (c : ℕ) (hc : c ≤ 67108864) :
    ∃ k rest, bulkSizes.filter (fun pool_size => decide (pool_size ≥ c)) = k :: rest ∧
      k ∈ bulkSizes ∧ c ≤ k ∧ ∀ j ∈ bulkSizes, c ≤ j → k ≤ j := by
  by_cases h1 : c ≤ 1048576
  · refine ⟨1048576, [2097152, 4194304, 8388608, 16777216, 33554432, 67108864], ?_, by decide, by omega, ?_⟩
    · simp only [bulkSizes, List.filter_cons, List.filter_nil, decide_eq_true_eq]
      rw [if_pos (by omega),
        if_pos (by omega),
        if_pos (by omega),
        if_pos (by omega),
        if_pos (by omega),
        if_pos (by omega),
        if_pos (by omega)]
    · intro j hj hcj
      simp only [bulkSizes, List.mem_cons, List.not_mem_nil, or_false] at hj
      rcases hj with rfl | rfl | rfl | rfl | rfl | rfl | rfl <;> omega
  by_cases h2 : c ≤ 2097152
  · refine ⟨2097152, [4194304, 8388608, 16777216, 33554432, 67108864], ?_, by decide, by omega, ?_⟩
    · simp only [bulkSizes, List.filter_cons, List.filter_nil, decide_eq_true_eq]
      rw [if_neg (by omega),
        if_pos (by omega),
        if_pos (by omega),
        if_pos (by omega),
        if_pos (by omega),
        if_pos (by omega),
        if_pos (by omega)]
    · intro j hj hcj
      simp only [bulkSizes, List.mem_cons, List.not_mem_nil, or_false] at hj
      rcases hj with rfl | rfl | rfl | rfl | rfl | rfl | rfl <;> omega
  by_cases h3 : c ≤ 4194304
  · refine ⟨4194304, [8388608, 16777216, 33554432, 67108864], ?_, by decide, by omega, ?_⟩
    · simp only [bulkSizes, List.filter_cons, List.filter_nil, decide_eq_true_eq]
      rw [if_neg (by omega),
        if_neg (by omega),
        if_pos (by omega),
        if_pos (by omega),
        if_pos (by omega),
        if_pos (by omega),
        if_pos (by omega)]
    · intro j hj hcj
      simp only [bulkSizes, List.mem_cons, List.not_mem_nil, or_false] at hj
      rcases hj with rfl | rfl | rfl | rfl | rfl | rfl | rfl <;> omega
  by_cases h4 : c ≤ 8388608
  · refine ⟨8388608, [16777216, 33554432, 67108864], ?_, by decide, by omega, ?_⟩
    · simp only [bulkSizes, List.filter_cons, List.filter_nil, decide_eq_true_eq]
      rw [if_neg (by omega),
        if_neg (by omega),
        if_neg (by omega),
        if_pos (by omega),
        if_pos (by omega),
        if_pos (by omega),
        if_pos (by omega)]
    · intro j hj hcj
      simp only [bulkSizes, List.mem_cons, List.not_mem_nil, or_false] at hj
      rcases hj with rfl | rfl | rfl | rfl | rfl | rfl | rfl <;> omega
  by_cases h5 : c ≤ 16777216
  · refine ⟨16777216, [33554432, 67108864], ?_, by decide, by omega, ?_⟩
    · simp only [bulkSizes, List.filter_cons, List.filter_nil, decide_eq_true_eq]
      rw [if_neg (by omega),
        if_neg (by omega),
        if_neg (by omega),
        if_neg (by omega),
        if_pos (by omega),
        if_pos (by omega),
        if_pos (by omega)]
    · intro j hj hcj
      simp only [bulkSizes, List.mem_cons, List.not_mem_nil, or_false] at hj
      rcases hj with rfl | rfl | rfl | rfl | rfl | rfl | rfl <;> omega
  by_cases h6 : c ≤ 33554432
  · refine ⟨33554432, [67108864], ?_, by decide, by omega, ?_⟩
    · simp only [bulkSizes, List.filter_cons, List.filter_nil, decide_eq_true_eq]
      rw [if_neg (by omega),
        if_neg (by omega),
        if_neg (by omega),
        if_neg (by omega),
        if_neg (by omega),
        if_pos (by omega),
        if_pos (by omega)]
    · intro j hj hcj
      simp only [bulkSizes, List.mem_cons, List.not_mem_nil, or_false] at hj
      rcases hj with rfl | rfl | rfl | rfl | rfl | rfl | rfl <;> omega
  · refine ⟨67108864, [], ?_, by decide, by omega, ?_⟩
    · simp only [bulkSizes, List.filter_cons, List.filter_nil, decide_eq_true_eq]
      rw [if_neg (by omega),
        if_neg (by omega),
        if_neg (by omega),
        if_neg (by omega),
        if_neg (by omega),
        if_neg (by omega),
        if_pos (by omega)]
    · intro j hj hcj
      simp only [bulkSizes, List.mem_cons, List.not_mem_nil, or_false] at hj
      rcases hj with rfl | rfl | rfl | rfl | rfl | rfl | rfl <;> omega

/-- C8: with the byte generator satisfying the os.urandom length law,
get_bulk_data returns exactly min of the request and 64 MiB bytes, and the
result is the prefix of the smallest pre-generated pool whose size is at
least the capped request. -/
theorem claim_C8_bulk_data (rand : ℕ → List ℕ) (hrand : ∀ k, (rand k).length = k)
    (n : ℕ) :
    (getBulkData (mkDataPool rand) n).length = min n maxSingleChunk ∧
    ∃ k, k ∈ bulkSizes ∧ min n maxSingleChunk ≤ k ∧
      (∀ j ∈ bulkSizes, min n maxSingleChunk ≤ j → k ≤ j) ∧
      getBulkData (mkDataPool rand) n = (rand k).take (min n maxSingleChunk) := by
  have hcap : min n maxSingleChunk ≤ 67108864 := by
    simp only [maxSingleChunk]
    omega
  obtain ⟨k, rest, he, hkmem, hck, hmin⟩ := bulkFilter_spec (min n maxSingleChunk) hcap
  have hmap : (mkDataPool rand).pools.map Prod.fst = bulkSizes := by
    rw [mkDataPool, List.map_map]
    generalize bulkSizes = l
    induction l with
    | nil => rfl
    | cons a t ih => simp [ih]
  have hsort : pySorted bulkSizes = bulkSizes := by decide
  have hsize : (if n > maxSingleChunk then maxSingleChunk else n) = min n maxSingleChunk := by
    split_ifs with h
    · exact (min_eq_right (by omega)).symm
    · exact (min_eq_left (by omega)).symm
  have hlookup : ((mkDataPool rand).pools.lookup k).getD [] = rand k := by
    simp only [bulkSizes, List.mem_cons, List.not_mem_nil, or_false] at hkmem
    rcases hkmem with rfl | rfl | rfl | rfl | rfl | rfl | rfl <;>
      simp [mkDataPool, bulkSizes, List.lookup]
  have hval : getBulkData (mkDataPool rand) n = (rand k).take (min n maxSingleChunk) := by
    rw [getBulkData]
    simp only [hsize, hmap, hsort, he, hlookup]
  refine ⟨?_, ⟨k, ?_, hck, hmin, hval⟩⟩
  · rw [hval]
    rw [List.length_take, hrand k]
    exact min_eq_left hck
  · exact hkmem

/-- C8 witness: a 3 MiB request is served from the 4 MiB pool with exactly
3 MiB of bytes (generator instantiated with zero-filled buffers, which
satisfy the urandom length law). -/
theorem claim_C8_witness :
    (∀ k, ((fun m => List.replicate m 0) k : List ℕ).length = k) ∧
    (getBulkData (mkDataPool (fun m => List.replicate m 0)) 3145728).length =
      min 3145728 maxSingleChunk :=
  ⟨fun k => List.length_replicate k 0,
   (claim_C8_bulk_data (fun m => List.replicate m 0)
     (fun k => List.length_replicate k 0) 3145728).1⟩

/-- C9 counterexample.  The claim says a connection with an unsupported
persona key is closed with WebSocket close code 1003 rather than served.
On the websocket_virtual_user endpoint of websocket_virtual_household.py,
an admitted connection for the unknown persona zebra is served with the
computer fallback profile and no 1003 close happens. -/
theorem claim_C9_counterexample :
    websocketVirtualUser true false (r"zebra_123") ≠ WsOutcome.closed 1003 ∧
    websocketVirtualUser true false (r"zebra_123") = WsOutcome.served computerProfile :=
  ⟨by intro h; exact absurd (congrArg (fun o => match o with
      | WsOutcome.closed _ => true
      | WsOutcome.served _ => false) h) (by decide), rfl⟩

/-- C9 amended: the 1003 close for unsupported user types is issued by the
load-balancer routing path (route_user_connection), which rejects exactly
the user ids outside the supported set; the direct
websocket_virtual_household endpoint never closes with 1003 — an admitted
connection whose persona key is unknown is served with the computer
fallback profile instead. -/
theorem claim_C9_unsupported_persona (user_id : String) (rateLimitOk atCapacity : Bool)
    (hper : extractUserType user_id ∉ supportedUserTypes) :
    (∀ uid : String, routeUserConnectionValidate uid = RouteOutcome.closedUnsupported1003 ↔
      uid ∉ supportedUserTypes) ∧
    websocketVirtualUser rateLimitOk atCapacity user_id ≠ WsOutcome.closed 1003 ∧
    (rateLimitOk = true → atCapacity = false →
      websocketVirtualUser rateLimitOk atCapacity user_id =
        WsOutcome.served computerProfile) := by
  have hfallback : startSessionProfile user_id = computerProfile := by
    rw [startSessionProfile]
    have hl : userProfiles.lookup (extractUserType user_id) = none := by
      simp only [supportedUserTypes, List.mem_cons, List.not_mem_nil, or_false,
        not_or] at hper
      obtain ⟨ha, hs, hj, hc⟩ := hper
      simp [userProfiles, List.lookup, beq_eq_false_iff_ne.mpr ha,
        beq_eq_false_iff_ne.mpr hs, beq_eq_false_iff_ne.mpr hj,
        beq_eq_false_iff_ne.mpr hc]
    rw [hl]
  refine ⟨fun uid => ?_, ?_, fun hrl hcap => ?_⟩
  · rw [routeUserConnectionValidate]
    split_ifs with h <;> simp [h]
  · rw [websocketVirtualUser]
    split_ifs <;> simp
  · subst hrl
    subst hcap
    rw [websocketVirtualUser]
    simp [hfallback]

/-- C9 witness: the amended statement evaluated on the unknown persona
zebra, which is admitted and served with the computer profile. -/
theorem claim_C9_witness :
    extractUserType (r"zebra_123") ∉ supportedUserTypes ∧
    websocketVirtualUser true false (r"zebra_123") = WsOutcome.served computerProfile :=
  ⟨by decide,
   (claim_C9_unsupported_persona (r"zebra_123") true false (by decide)).2.2 rfl rfl⟩

/-! ## C6: baseline latch of the latency tracker -/

/-- Once the baseline is established, a further update_latency call keeps
it established and leaves the stored baseline untouched. -/
lemma updateLatency_established (t : LatencyTracker) (l : ℚ) (sq : Option ℕ) (now : ℚ)
    (h : t.baseline_established = true) :
    (updateLatency t l sq now).baseline_established = true ∧
    (updateLatency t l sq now).baseline_latency = t.baseline_latency := by
  simp [updateLatency, h]

/-- One update_latency call grows the retained history by at most one
sample. -/
lemma updateLatency_len_le (t : LatencyTracker) (l : ℚ) (sq : Option ℕ) (now : ℚ) :
    (updateLatency t l sq now).ping_history.length ≤ t.ping_history.length + 1 := by
  simp only [updateLatency]
  refine le_trans (List.length_filter_le _ _) ?_
  simp

/-- Before the baseline exists, an update establishes it exactly when the
trimmed history reaches 10 samples, and then stores the mean of those
first 10 retained samples. -/
lemma updateLatency_establish_iff (t : LatencyTracker) (l : ℚ) (sq : Option ℕ) (now : ℚ)
    (h : t.baseline_established = false) :
    ((updateLatency t l sq now).baseline_established = true ↔
      10 ≤ (updateLatency t l sq now).ping_history.length) ∧
    ((updateLatency t l sq now).baseline_established = true →
      (updateLatency t l sq now).baseline_latency =
        meanLatency ((updateLatency t l sq now).ping_history.take 10)) := by
  by_cases hlen :
      10 ≤ ((t.ping_history ++
        [({ timestamp := now, latency_ms := l, sequence := sq } : PingSample)]).filter
          (fun s : PingSample => decide (s.timestamp > now - 60))).length <;>
    simp [updateLatency, h, hlen] <;> (intros; omega)

/-- Along any call sequence, a tracker without an established baseline has
at most 9 retained samples. -/
lemma ltRun_pre_baseline_len (uid : String) (calls : List LTCall) :
    (ltRun uid calls).baseline_established = false →
      (ltRun uid calls).ping_history.length ≤ 9 := by
  rw [ltRun]
  generalize hini : ({ user_id := uid } : LatencyTracker) = t0
  have h0 : t0.baseline_established = false → t0.ping_history.length ≤ 9 := by
    rw [← hini]
    intro _
    simp
  clear hini
  induction calls generalizing t0 with
  | nil => exact h0
  | cons c rest ih =>
      simp only [List.foldl_cons]
      apply ih
      intro hf
      by_cases hest : t0.baseline_established = true
      · have := (updateLatency_established t0 c.latency_ms c.sequence_num c.now hest).1
        rw [this] at hf
        cases hf
      · have hest' : t0.baseline_established = false := by
          cases h : t0.baseline_established
          · rfl
          · exact absurd h hest
        have hiff := (updateLatency_establish_iff t0 c.latency_ms c.sequence_num c.now hest').1
        have hnot : ¬ 10 ≤ (updateLatency t0 c.latency_ms c.sequence_num c.now).ping_history.length := by
          intro hge
          rw [← hiff] at hge
          rw [hge] at hf
          cases hf
        omega

/-- C6: the baseline of a PerUserLatencyTracker is established exactly
once.  From any reachable tracker state, if the baseline is already
established a further update keeps it established with the same value;
if not, the update establishes it iff the retained history reaches exactly
10 samples, and then the baseline is the mean of those first 10 retained
samples. -/
theorem claim_C6_baseline_latch (uid : String) (calls : List LTCall) (c : LTCall) :
    ((ltRun uid calls).baseline_established = true →
      (updateLatency (ltRun uid calls) c.latency_ms c.sequence_num c.now).baseline_established = true ∧
      (updateLatency (ltRun uid calls) c.latency_ms c.sequence_num c.now).baseline_latency =
        (ltRun uid calls).baseline_latency) ∧
    ((ltRun uid calls).baseline_established = false →
      ((updateLatency (ltRun uid calls) c.latency_ms c.sequence_num c.now).baseline_established = true ↔
        (updateLatency (ltRun uid calls) c.latency_ms c.sequence_num c.now).ping_history.length = 10) ∧
      ((updateLatency (ltRun uid calls) c.latency_ms c.sequence_num c.now).baseline_established = true →
        (updateLatency (ltRun uid calls) c.latency_ms c.sequence_num c.now).baseline_latency =
          meanLatency
            ((updateLatency (ltRun uid calls) c.latency_ms c.sequence_num c.now).ping_history.take 10))) := by
  refine ⟨fun hest => updateLatency_established _ _ _ _ hest, fun hf => ?_⟩
  have hlen9 := ltRun_pre_baseline_len uid calls hf
  have hlen10 := updateLatency_len_le (ltRun uid calls) c.latency_ms c.sequence_num c.now
  have hiff := updateLatency_establish_iff (ltRun uid calls) c.latency_ms c.sequence_num c.now hf
  refine ⟨?_, hiff.2⟩
  rw [hiff.1]
  omega

/-- C6 witness: on the fresh tracker (no baseline), a first update does not
establish the baseline: the equivalence instantiates to the 1-sample
history. -/
theorem claim_C6_witness :
    (ltRun (r"sarah_1") []).baseline_established = false ∧
    ((updateLatency (ltRun (r"sarah_1") []) 5 none 0).baseline_established = true ↔
      (updateLatency (ltRun (r"sarah_1") []) 5 none 0).ping_history.length = 10) :=
  ⟨rfl,
   ((claim_C6_baseline_latch (r"sarah_1") [] { latency_ms := 5, sequence_num := none, now := 0 }).2
     rfl).1⟩

/-! ## C5: Netflix chunk layout -/

/-- struct format H packs 2 bytes. -/
lemma le16_length (n : ℕ) : (le16 n).length = 2 := rfl

/-- struct format I packs 4 bytes. -/
lemma le32_length (n : ℕ) : (le32 n).length = 4 := rfl

/-- The padded id block is always exactly 16 bytes. -/
lemma padTo16_length (l : List ℕ) : (padTo16 l).length = 16 := by
  simp [padTo16]

/-- The packed header block is 26 bytes, not the 48 named in the source
comment. -/
lemma netflixHeader_length (s t c : ℕ) (q : String) :
    (netflixHeader s t c q).length = 26 := by
  simp [netflixHeader, le32, le16]

/-- Flattening m four-byte words yields 4 m bytes. -/
lemma flatten_words_length (f : ℕ → List ℕ) (hf : ∀ k, (f k).length = 4) (m : ℕ) :
    (((List.range m).map f).flatten).length = 4 * m := by
  induction m with
  | zero => rfl
  | succ m ih =>
      rw [List.range_succ]
      simp only [List.map_append, List.flatten_append, List.length_append, ih,
        List.map_cons, List.map_nil, List.flatten_cons, List.flatten_nil,
        List.append_nil, hf]
      omega

/-- The keyframe filler delivers exactly the requested byte count. -/
lemma keyframeFill_length (r : ℕ) : (keyframeFill r).length = r := by
  rw [keyframeFill, List.length_take,
    flatten_words_length (fun k => le32 (keyPatternWord k)) (fun k => le32_length _)]
  omega

/-- The delta filler delivers exactly the requested byte count. -/
lemma deltaFill_length (s r : ℕ) : (deltaFill s r).length = r := by
  rw [deltaFill, List.length_take,
    flatten_words_length
      (fun _ => le32 (Nat.xor 0x11111111 (Nat.land s 0xFFFF))) (fun k => le32_length _)]
  omega

/-- Little-endian decode inverts the 4-byte encode on 32-bit values. -/
lemma decodeLEBytes_le32 (n : ℕ) (h : n < 4294967296) :
    decodeLEBytes (le32 n) = n := by
  simp [decodeLEBytes, le32]
  omega

/-- Extracting the block at a known byte offset of a concatenation. -/
lemma append_extract_take (pre mid post : List ℕ) (n m : ℕ)
    (hpre : pre.length = n) (hmid : mid.length = m) :
    ((pre ++ (mid ++ post)).drop n).take m = mid := by
  rw [List.drop_left' hpre, List.take_left' hmid]

/-- For chunk sizes of at least 58 bytes, the generated chunk is the
26-byte header, the two 16-byte padded ids, and a filler of the remaining
length. -/
lemma generateNetflixChunk_decomp (cs : ℕ) (q : String) (s t : ℕ) (sid fid : List ℕ)
    (h58 : 58 ≤ cs) :
    ∃ fill : List ℕ, fill.length = cs - 58 ∧
      generateNetflixChunk cs q s t sid fid =
        netflixHeader s (t % 4294967296) cs q ++
          (padTo16 sid ++ (padTo16 fid ++ fill)) := by
  have hdl : (netflixHeader s (t % 4294967296) cs q ++
      padTo16 sid ++ padTo16 fid).length = 58 := by
    simp [List.length_append, netflixHeader_length, padTo16_length]
  simp only [generateNetflixChunk, hdl]
  by_cases hpos : cs - 58 > 0
  · by_cases hkf : s % 30 = 0
    · refine ⟨keyframeFill (cs - 58), keyframeFill_length _, ?_⟩
      rw [if_pos hpos, if_pos hkf]
      rw [List.take_of_length_le (by
        simp [List.length_append, netflixHeader_length, padTo16_length,
          keyframeFill_length]
        omega)]
      simp [List.append_assoc]
    · refine ⟨deltaFill s (cs - 58), deltaFill_length _ _, ?_⟩
      rw [if_pos hpos, if_neg hkf]
      rw [List.take_of_length_le (by
        simp [List.length_append, netflixHeader_length, padTo16_length,
          deltaFill_length]
        omega)]
      simp [List.append_assoc]
  · refine ⟨[], by simp only [List.length_nil]; omega, ?_⟩
    rw [if_neg hpos]
    rw [List.take_of_length_le (by rw [hdl]; omega)]
    simp [List.append_assoc]

/-- C5 counterexample.  The claim places the 16-byte session id right
after a 48-byte header.  In a generated chunk the bytes at offsets 48 to
63 are not the padded session id (which actually sits at offsets 26 to
41): the struct-packed header is only 26 bytes long. -/
theorem claim_C5_counterexample :
    ((netflixChunkEndpoint false 200 (r"1080p") 7 0
        defaultSessionIdBytes defaultFlowIdBytes).drop 48).take 16 ≠
      padTo16 defaultSessionIdBytes := by
  decide

/-- C5 amended: the response of the netflix-chunk endpoint (as registered,
without burst mode) to a request of chunk size at least 58 starts with a
26-byte little-endian header — sequence at offset 0, timestamp at 4,
chunk size at 8, reserved at 12, viewer count at 16, keyframe flag at 18
(1 iff sequence mod 30 = 0), quality level at 19 (480p 0, 720p 1, 1080p 2,
HD 3, default 2), complexity at 20, buffer level and padding after —
followed by the 16-byte NUL-padded session id at offset 26 and the
16-byte NUL-padded flow id at offset 42; the response has exactly the
requested size and decoding the header reproduces the requested sequence,
chunk size, keyframe flag and quality index. -/
theorem claim_C5_netflix_chunk_layout (chunkSize : ℕ) (quality : String)
    (sequence timestamp : ℕ) (sid fid : List ℕ)
    (h58 : 58 ≤ chunkSize) (hseq : sequence < 4294967296)
    (hcs : chunkSize < 4294967296) :
    (netflixChunkEndpoint false chunkSize quality sequence timestamp sid fid).length
        = chunkSize ∧
    decodeLEBytes
        ((netflixChunkEndpoint false chunkSize quality sequence timestamp sid fid).take 4)
        = sequence ∧
    decodeLEBytes
        (((netflixChunkEndpoint false chunkSize quality sequence timestamp sid fid).drop 8).take 4)
        = chunkSize ∧
    ((netflixChunkEndpoint false chunkSize quality sequence timestamp sid fid).drop 18).take 1
        = [if sequence % 30 = 0 then 1 else 0] ∧
    ((netflixChunkEndpoint false chunkSize quality sequence timestamp sid fid).drop 19).take 1
        = [qualityLevel quality] ∧
    ((netflixChunkEndpoint false chunkSize quality sequence timestamp sid fid).drop 26).take 16
        = padTo16 sid ∧
    ((netflixChunkEndpoint false chunkSize quality sequence timestamp sid fid).drop 42).take 16
        = padTo16 fid ∧
    qualityLevel (r"480p") = 0 ∧ qualityLevel (r"720p") = 1 ∧
    qualityLevel (r"1080p") = 2 ∧ qualityLevel (r"HD") = 3 := by
  obtain ⟨fill, hfl, hg⟩ :=
    generateNetflixChunk_decomp chunkSize quality sequence timestamp sid fid h58
  have hr : netflixChunkEndpoint false chunkSize quality sequence timestamp sid fid =
      netflixHeader sequence (timestamp % 4294967296) chunkSize quality ++
        (padTo16 sid ++ (padTo16 fid ++ fill)) := by
    rw [netflixChunkEndpoint]
    simp only [Bool.false_eq_true, false_and, if_false]
    exact hg
  have e0 : netflixChunkEndpoint false chunkSize quality sequence timestamp sid fid =
      le32 sequence ++
        (le32 (timestamp % 4294967296) ++ (le32 chunkSize ++ (le32 0 ++ (le16 0 ++
          ([if sequence % 30 = 0 then 1 else 0] ++ ([qualityLevel quality] ++ ([1] ++
            ([0] ++ (le16 0 ++ (le16 0 ++
              (padTo16 sid ++ (padTo16 fid ++ fill)))))))))))) := by
    rw [hr, netflixHeader]
    simp only [List.append_assoc]
  refine ⟨?_, ?_, ?_, ?_, ?_, ?_, ?_, rfl, rfl, rfl, rfl⟩
  · rw [hr]
    simp [List.length_append, netflixHeader_length, padTo16_length, hfl]
    omega
  · rw [e0, List.take_left' (le32_length sequence)]
    exact decodeLEBytes_le32 sequence hseq
  · have e8 : netflixChunkEndpoint false chunkSize quality sequence timestamp sid fid =
        (le32 sequence ++ le32 (timestamp % 4294967296)) ++ (le32 chunkSize ++ (le32 0 ++ (le16 0 ++
          ([if sequence % 30 = 0 then 1 else 0] ++ ([qualityLevel quality] ++ ([1] ++
            ([0] ++ (le16 0 ++ (le16 0 ++
              (padTo16 sid ++ (padTo16 fid ++ fill))))))))))) := by
      rw [e0]
      simp only [List.append_assoc]
    rw [e8, append_extract_take _ _ _ 8 4 (by simp [le32]) (le32_length chunkSize)]
    exact decodeLEBytes_le32 chunkSize hcs
  · have e18 : netflixChunkEndpoint false chunkSize quality sequence timestamp sid fid =
        (le32 sequence ++ (le32 (timestamp % 4294967296) ++ (le32 chunkSize ++ (le32 0 ++ le16 0)))) ++
          ([if sequence % 30 = 0 then 1 else 0] ++ ([qualityLevel quality] ++ ([1] ++
            ([0] ++ (le16 0 ++ (le16 0 ++
              (padTo16 sid ++ (padTo16 fid ++ fill)))))))) := by
      rw [e0]
      simp only [List.append_assoc]
    rw [e18, append_extract_take _ _ _ 18 1 (by simp [le32, le16]) (by simp)]
  · have e19 : netflixChunkEndpoint false chunkSize quality sequence timestamp sid fid =
        (le32 sequence ++ (le32 (timestamp % 4294967296) ++ (le32 chunkSize ++ (le32 0 ++ (le16 0 ++
          [if sequence % 30 = 0 then 1 else 0]))))) ++
          ([qualityLevel quality] ++ ([1] ++
            ([0] ++ (le16 0 ++ (le16 0 ++
              (padTo16 sid ++ (padTo16 fid ++ fill))))))) := by
      rw [e0]
      simp only [List.append_assoc]
    rw [e19, append_extract_take _ _ _ 19 1 (by simp [le32, le16]) (by simp)]
  · have e26 : netflixChunkEndpoint false chunkSize quality sequence timestamp sid fid =
        (le32 sequence ++ (le32 (timestamp % 4294967296) ++ (le32 chunkSize ++ (le32 0 ++ (le16 0 ++
          ([if sequence % 30 = 0 then 1 else 0] ++ ([qualityLevel quality] ++ ([1] ++
            ([0] ++ (le16 0 ++ le16 0)))))))))) ++
          (padTo16 sid ++ (padTo16 fid ++ fill)) := by
      rw [e0]
      simp only [List.append_assoc]
    rw [e26, append_extract_take _ _ _ 26 16 (by simp [le32, le16]) (padTo16_length sid)]
  · have e42 : netflixChunkEndpoint false chunkSize quality sequence timestamp sid fid =
        (le32 sequence ++ (le32 (timestamp % 4294967296) ++ (le32 chunkSize ++ (le32 0 ++ (le16 0 ++
          ([if sequence % 30 = 0 then 1 else 0] ++ ([qualityLevel quality] ++ ([1] ++
            ([0] ++ (le16 0 ++ (le16 0 ++ padTo16 sid))))))))))) ++
          (padTo16 fid ++ fill) := by
      rw [e0]
      simp only [List.append_assoc]
    rw [e42, append_extract_take _ _ _ 42 16
      (by simp [le32, le16, padTo16_length]) (padTo16_length fid)]

/-- C5 witness: the amended layout evaluated on a 200-byte request with
sequence 7 and quality 1080p: the session id sits at offset 26 and the
first four bytes decode back to the sequence. -/
theorem claim_C5_witness :
    (58 ≤ 200 ∧ (7 : ℕ) < 4294967296 ∧ (200 : ℕ) < 4294967296) ∧
    ((netflixChunkEndpoint false 200 (r"1080p") 7 0
        defaultSessionIdBytes defaultFlowIdBytes).drop 26).take 16 =
      padTo16 defaultSessionIdBytes ∧
    decodeLEBytes
        ((netflixChunkEndpoint false 200 (r"1080p") 7 0
          defaultSessionIdBytes defaultFlowIdBytes).take 4) = 7 :=
  ⟨⟨by decide, by decide, by decide⟩,
   (claim_C5_netflix_chunk_layout 200 (r"1080p") 7 0
     defaultSessionIdBytes defaultFlowIdBytes (by decide) (by decide) (by decide)).2.2.2.2.2.1,
   (claim_C5_netflix_chunk_layout 200 (r"1080p") 7 0
     defaultSessionIdBytes defaultFlowIdBytes (by decide) (by decide) (by decide)).2.1⟩

/-- C2 witness: the amended characterisation evaluated on the jake
netflix_adaptive pattern flipping from pause back to active at time 5. -/
theorem claim_C2_witness :
    (jakeProfile.burst_pattern = BurstPattern.netflixAdaptive 1 4 25 0 ∨
     jakeProfile.burst_pattern = BurstPattern.updateBursts 1 4 25 0) ∧
    pausedBurstState.phase = Phase.pause ∧
    (5 : ℚ) - pausedBurstState.phase_start_time ≥ 4 ∧
    getCurrentEffectiveRate jakeProfile pausedBurstState Direction.download 5 =
      (25, { phase := Phase.active, phase_start_time := 5,
             cycle_count := pausedBurstState.cycle_count }) :=
  ⟨Or.inl rfl, rfl, by norm_num [pausedBurstState],
   (claim_C2_two_phase_rate jakeProfile 1 4 25 0 pausedBurstState 5 (Or.inl rfl)).2.2.1
     rfl (by norm_num [pausedBurstState])⟩

end BBTest
